import Mathlib

/-!
Shallow embedding of `src/python_service/image_classifier.py`, a Flask
service exposing a local image-classification model over HTTP.

Modelling conventions:
- Image bytes are abstract (`Bytes := List Nat`).
- A decoded PIL image is a structure carrying its `mode` string and an
  abstract pixel payload; the PIL convert call is modelled as setting the
  mode to the requested one.
- Fallible library calls (image decode, `requests.get`, pipeline inference,
  `request.get_json`, model loading) are oracles returning
  `Except String _`; the `.error` case models a raised exception with the
  given message text.
- Each endpoint returns a `ClassifyResult`: the HTTP response together with
  an instrumentation trace recording which images were passed to the
  classifier and which URL fetches were made (with their timeouts), so that
  claims such as "no inference is attempted" or "fetches exactly once with a
  10-second timeout" are statable.
-/

namespace ImageClassifier

/-- Abstract image bytes. -/
abbrev Bytes := List Nat

/-- Model of a decoded PIL image: its color mode plus abstract pixel data. -/
structure PILImage where
  mode : String
  pixels : Nat
deriving DecidableEq, Repr

/-- Model of PIL `Image.convert(mode)`: the returned image has the requested
mode. -/
def PILImage.convert (img : PILImage) (m : String) : PILImage :=
  { img with mode := m }

/-- The two lines `if image.mode != ...: image = image.convert(...)` that
both classify endpoints run (textually duplicated) before inference. -/
def rgbNormalize (image : PILImage) : PILImage :=
  if image.mode ≠ "RGB" then image.convert "RGB" else image

/-- A raw inference result: ordered list of (label, score) pairs as returned
by the HuggingFace pipeline. Scores are modelled as rationals. -/
abbrev RawResults := List (String × ℚ)

/-- The classifier pipeline handle: maps an image to raw results, or raises. -/
abbrev Classifier := PILImage → Except String RawResults

/-- One entry of the `labels` list: a dict of `description` and `confidence`. -/
structure LabelEntry where
  description : String
  confidence : ℚ
deriving DecidableEq, Repr

/-- The 200-response envelope built by both classify endpoints. -/
structure Envelope where
  labels : List LabelEntry
  colors : List String
  objects : List LabelEntry
  confidence : ℚ
  source : String
  model : String
deriving DecidableEq, Repr

/-- An HTTP response of the service: a 200 envelope, an error body
of `error` plus empty `labels` with the given status code, or the health
body of `status` plus `model_loaded`. -/
inductive Resp where
  | ok (env : Envelope)
  | err (status : Nat) (error : String)
  | health (status : String) (modelLoaded : Bool)
deriving DecidableEq, Repr

/-- HTTP status code of a response (200 for success bodies). -/
def Resp.statusCode : Resp → Nat
  | .ok _ => 200
  | .err s _ => s
  | .health _ _ => 200

/-- A parsed JSON value, as returned by the Flask `request.get_json()`
call (`null` becomes Python `None`). -/
inductive JsonVal where
  | null
  | bool (b : Bool)
  | num (n : Int)
  | str (s : String)
  | arr (xs : List JsonVal)
  | obj (fields : List (String × JsonVal))

/-- The Python membership test `k in data` on a parsed JSON value: key lookup
on a dict, element test on a list, substring test on a string; raises
`TypeError` on `None`, booleans and numbers. -/
def jsonContains (data : JsonVal) (k : String) : Except String Bool :=
  match data with
  | .null => .error "argument of type NoneType is not iterable"
  | .bool _ => .error "argument of type bool is not iterable"
  | .num _ => .error "argument of type int is not iterable"
  | .str s => .ok (decide (k.data <:+: s.data))
  | .arr xs => .ok (xs.any fun x => match x with | .str s => s == k | _ => false)
  | .obj fields => .ok (fields.lookup k).isSome

/-- The Python subscript `data[k]` on a parsed JSON value: dict lookup
(raising `KeyError` on a miss); raises `TypeError` when the value is a
list, string, or other non-dict. -/
def jsonIndex (data : JsonVal) (k : String) : Except String JsonVal :=
  match data with
  | .obj fields =>
    match fields.lookup k with
    | some v => .ok v
    | none => .error "KeyError"
  | .arr _ => .error "list indices must be integers or slices, not str"
  | .str _ => .error "string indices must be integers"
  | _ => .error "object is not subscriptable"

/-- Model of a `requests` HTTP response: status code and body bytes. -/
structure HttpResp where
  statusCode : Nat
  content : Bytes
deriving DecidableEq, Repr

/-- Model of `requests.Response.raise_for_status()`: raises an `HTTPError`
for status codes in [400, 600), otherwise returns normally. -/
def raiseForStatus (r : HttpResp) : Except String Unit :=
  if 400 ≤ r.statusCode ∧ r.statusCode < 600 then
    .error (toString r.statusCode ++
      (if r.statusCode < 500 then " Client Error" else " Server Error"))
  else .ok ()

/-- The URL-fetch oracle: `requests.get(url, timeout)`; the `.error` case
models a raised timeout/connection exception. -/
abbrev Fetch := JsonVal → Nat → Except String HttpResp

/-- Endpoint outcome plus instrumentation: the images passed to the
classifier and the (url, timeout) arguments of each `requests.get` call. -/
structure ClassifyResult where
  resp : Resp
  inferInputs : List PILImage
  fetchCalls : List (JsonVal × Nat)

/-- The result-formatting loop of `classify_image`:
`for result in results[:10]` appending a dict of `description` and
`confidence` per entry. -/
def formatLabels_classify (results : RawResults) : List LabelEntry :=
  (results.take 10).map fun r => { description := r.1, confidence := r.2 }

/-- The (textually duplicated) result-formatting loop of `classify_image_url`. -/
def formatLabels_url (results : RawResults) : List LabelEntry :=
  (results.take 10).map fun r => { description := r.1, confidence := r.2 }

/-- Default model identifier: `os.getenv` of `HF_MODEL` with the
documented default. -/
def hfModelName (hfModelEnv : Option String) : String :=
  hfModelEnv.getD "google/vit-base-patch16-224"

/-- The `POST /classify` handler. Parameters: the global `classifier`
handle, the image-decoding oracle (`Image.open` on the uploaded bytes),
the multipart files of the request (an association list of field name to bytes),
and the `HF_MODEL` environment variable. -/
def classify_image (classifier : Option Classifier)
    (decode : Bytes → Except String PILImage)
    (files : List (String × Bytes)) (hfModelEnv : Option String) :
    ClassifyResult :=
  match classifier with
  | none => ⟨.err 500 "Model not loaded", [], []⟩
  | some clf =>
    match files.lookup "image" with
    | none => ⟨.err 400 "No image file provided", [], []⟩
    | some imageBytes =>
      match decode imageBytes with
      | .error e => ⟨.err 500 e, [], []⟩
      | .ok image0 =>
        let image := rgbNormalize image0
        match clf image with
        | .error e => ⟨.err 500 e, [image], []⟩
        | .ok results =>
          let labels := formatLabels_classify results
          ⟨.ok { labels := labels
                 colors := []
                 objects := labels.take 5
                 confidence := match labels with | [] => 0 | l :: _ => l.confidence
                 source := "local_transformers"
                 model := hfModelName hfModelEnv },
           [image], []⟩

/-- The `POST /classify_url` handler. Parameters: the global `classifier`
handle, the image-decoding oracle, the URL-fetch oracle, the outcome of
`request.get_json()` (`.error` models a raised parse/content-type
exception), and the `HF_MODEL` environment variable. -/
def classify_image_url (classifier : Option Classifier)
    (decode : Bytes → Except String PILImage) (fetch : Fetch)
    (body : Except String JsonVal) (hfModelEnv : Option String) :
    ClassifyResult :=
  match classifier with
  | none => ⟨.err 500 "Model not loaded", [], []⟩
  | some clf =>
    match body with
    | .error e => ⟨.err 500 e, [], []⟩
    | .ok data =>
      match jsonContains data "url" with
      | .error e => ⟨.err 500 e, [], []⟩
      | .ok false => ⟨.err 400 "No image URL provided", [], []⟩
      | .ok true =>
        match jsonIndex data "url" with
        | .error e => ⟨.err 500 e, [], []⟩
        | .ok url =>
          match fetch url 10 with
          | .error e => ⟨.err 500 e, [], [(url, 10)]⟩
          | .ok response =>
            match raiseForStatus response with
            | .error e => ⟨.err 500 e, [], [(url, 10)]⟩
            | .ok _ =>
              match decode response.content with
              | .error e => ⟨.err 500 e, [], [(url, 10)]⟩
              | .ok image0 =>
                let image := rgbNormalize image0
                match clf image with
                | .error e => ⟨.err 500 e, [image], [(url, 10)]⟩
                | .ok results =>
                  let labels := formatLabels_url results
                  ⟨.ok { labels := labels
                         colors := []
                         objects := labels.take 5
                         confidence := match labels with | [] => 0 | l :: _ => l.confidence
                         source := "local_transformers"
                         model := hfModelName hfModelEnv },
                   [image], [(url, 10)]⟩

/-- The `GET /health` handler. -/
def health (classifier : Option Classifier) : Resp :=
  .health "ok" classifier.isSome

/-- Embeds `load_model`: calls `pipeline("image-classification", model=model_name,
device=-1)`; on success sets the global `classifier` and returns True, on
any exception leaves it unchanged and returns False. State is passed
explicitly: `classifier0` is the previous value of the global. -/
def load_model (pipelineLoad : String → Except String Classifier)
    (classifier0 : Option Classifier) (model_name : String) :
    Option Classifier × Bool :=
  match pipelineLoad model_name with
  | .ok c => (some c, true)
  | .error _ => (classifier0, false)

/-- Outcome of the `__main__` block: either `sys.exit(code)` or serving on
the given host/port with the given classifier state. -/
inductive MainOutcome where
  | exited (code : Nat)
  | serving (classifier : Option Classifier) (host : String) (port : Nat)

/-- The `__main__` block: load the model (exiting with code 1 on failure),
then run the app on 0.0.0.0 at `PYTHON_SERVICE_PORT` (default 5000). The
second component counts model-load attempts. -/
def serviceMain (pipelineLoad : String → Except String Classifier)
    (hfModelEnv : Option String) (portEnv : Option Nat) :
    MainOutcome × Nat :=
  let model_name := hfModelName hfModelEnv
  let r := load_model pipelineLoad none model_name
  if r.2 then (.serving r.1 "0.0.0.0" (portEnv.getD 5000), 1)
  else (.exited 1, 1)

/-- One incoming HTTP request, dispatched by route. -/
inductive Request where
  | health
  | classify (files : List (String × Bytes))
  | classifyUrl (body : Except String JsonVal)

/-- The request dispatcher as a state transition: the state is the global
`classifier` handle; each handler produces a response and the (unchanged)
state, since no route handler assigns to the global. -/
def handle (decode : Bytes → Except String PILImage) (fetch : Fetch)
    (hfModelEnv : Option String) (st : Option Classifier) (req : Request) :
    Option Classifier × Resp :=
  match req with
  | .health => (st, health st)
  | .classify files => (st, (classify_image st decode files hfModelEnv).resp)
  | .classifyUrl body => (st, (classify_image_url st decode fetch body hfModelEnv).resp)

/-- Run a sequence of requests from a given classifier state, returning the
final state. -/
def runServer (decode : Bytes → Except String PILImage) (fetch : Fetch)
    (hfModelEnv : Option String) (st : Option Classifier) :
    List Request → Option Classifier
  | [] => st
  | r :: rs => runServer decode fetch hfModelEnv (handle decode fetch hfModelEnv st r).1 rs

/-! ## Shared helper lemmas -/

/-- The classify-endpoint formatter emits at most 10 labels. -/
theorem formatLabels_classify_length_le (rs : RawResults) :
    (formatLabels_classify rs).length ≤ 10 := by
  simp only [formatLabels_classify, List.length_map, List.length_take]
  omega

/-- The url-endpoint formatter emits at most 10 labels. -/
theorem formatLabels_url_length_le (rs : RawResults) :
    (formatLabels_url rs).length ≤ 10 := by
  simp only [formatLabels_url, List.length_map, List.length_take]
  omega

/-- Any 200 envelope of `classify_image` satisfies the §3 invariant. -/
theorem classify_image_ok_inv (classifier : Option Classifier)
    (decode : Bytes → Except String PILImage)
    (files : List (String × Bytes)) (hfModelEnv : Option String) (env : Envelope)
    (h : (classify_image classifier decode files hfModelEnv).resp = .ok env) :
    env.labels.length ≤ 10 ∧ env.objects = env.labels.take 5 ∧
      env.confidence =
        (match env.labels with | [] => (0 : ℚ) | l :: _ => l.confidence) := by
  rcases classifier with _ | clf
  · simp [classify_image] at h
  rcases hf : files.lookup "image" with _ | bytes
  · simp [classify_image, hf] at h
  rcases hd : decode bytes with e | img
  · simp [classify_image, hf, hd] at h
  rcases hc : clf (rgbNormalize img) with e | rs
  · simp [classify_image, hf, hd, hc] at h
  simp only [classify_image, hf, hd, hc] at h
  injection h with h2
  subst h2
  exact ⟨formatLabels_classify_length_le rs, rfl, rfl⟩

/-- Any 200 envelope of `classify_image_url` satisfies the §3 invariant. -/
theorem classify_image_url_ok_inv (classifier : Option Classifier)
    (decode : Bytes → Except String PILImage) (fetch : Fetch)
    (body : Except String JsonVal) (hfModelEnv : Option String) (env : Envelope)
    (h : (classify_image_url classifier decode fetch body hfModelEnv).resp = .ok env) :
    env.labels.length ≤ 10 ∧ env.objects = env.labels.take 5 ∧
      env.confidence =
        (match env.labels with | [] => (0 : ℚ) | l :: _ => l.confidence) := by
  rcases classifier with _ | clf
  · simp [classify_image_url] at h
  rcases body with e | data
  · simp [classify_image_url] at h
  rcases hj : jsonContains data "url" with e | b
  · simp [classify_image_url, hj] at h
  rcases b
  · simp [classify_image_url, hj] at h
  rcases hi : jsonIndex data "url" with e | url
  · simp [classify_image_url, hj, hi] at h
  rcases hg : fetch url 10 with e | response
  · simp [classify_image_url, hj, hi, hg] at h
  rcases hs : raiseForStatus response with e | u
  · simp [classify_image_url, hj, hi, hg, hs] at h
  rcases hd : decode response.content with e | img
  · simp [classify_image_url, hj, hi, hg, hs, hd] at h
  rcases hc : clf (rgbNormalize img) with e | rs
  · simp [classify_image_url, hj, hi, hg, hs, hd, hc] at h
  simp only [classify_image_url, hj, hi, hg, hs, hd, hc] at h
  injection h with h2
  subst h2
  exact ⟨formatLabels_url_length_le rs, rfl, rfl⟩

/-! ## Claim theorems -/

/-- C1: every 200 response of POST /classify and POST /classify_url has an
envelope with `labels` of length at most 10, `objects` equal to
`labels[0:5]`, and `confidence` equal to `labels[0].confidence` when
`labels` is non-empty and 0 otherwise. -/
theorem c1_envelope_invariant (classifier : Option Classifier)
    (decode : Bytes → Except String PILImage) (fetch : Fetch)
    (files : List (String × Bytes)) (body : Except String JsonVal)
    (hfModelEnv : Option String) (env env' : Envelope)
    (h : (classify_image classifier decode files hfModelEnv).resp = .ok env)
    (h' : (classify_image_url classifier decode fetch body hfModelEnv).resp = .ok env') :
    (env.labels.length ≤ 10 ∧ env.objects = env.labels.take 5 ∧
      env.confidence =
        (match env.labels with | [] => (0 : ℚ) | l :: _ => l.confidence)) ∧
    (env'.labels.length ≤ 10 ∧ env'.objects = env'.labels.take 5 ∧
      env'.confidence =
        (match env'.labels with | [] => (0 : ℚ) | l :: _ => l.confidence)) :=
  ⟨classify_image_ok_inv classifier decode files hfModelEnv env h,
   classify_image_url_ok_inv classifier decode fetch body hfModelEnv env' h'⟩

/-- C1 witness: a concrete successful request to each endpoint. -/
theorem c1_envelope_invariant_witness :
    ∃ env env' : Envelope,
      (classify_image (some fun _ => .ok [("cat", 9/10), ("dog", 1/10)])
          (fun _ => .ok ⟨"RGB", 0⟩) [("image", [7])] none).resp = .ok env ∧
      (classify_image_url (some fun _ => .ok [("cat", 9/10), ("dog", 1/10)])
          (fun _ => .ok ⟨"RGB", 0⟩) (fun _ _ => .ok ⟨200, [7]⟩)
          (.ok (.obj [("url", .str "http://x/a.png")])) none).resp = .ok env' ∧
      (env.labels.length ≤ 10 ∧ env.objects = env.labels.take 5 ∧
        env.confidence =
          (match env.labels with | [] => (0 : ℚ) | l :: _ => l.confidence)) ∧
      (env'.labels.length ≤ 10 ∧ env'.objects = env'.labels.take 5 ∧
        env'.confidence =
          (match env'.labels with | [] => (0 : ℚ) | l :: _ => l.confidence)) :=
  ⟨_, _, rfl, rfl,
   c1_envelope_invariant (some fun _ => .ok [("cat", 9/10), ("dog", 1/10)])
     (fun _ => .ok ⟨"RGB", 0⟩) (fun _ _ => .ok ⟨200, [7]⟩)
     [("image", [7])] (.ok (.obj [("url", .str "http://x/a.png")])) none _ _ rfl rfl⟩

/-- C2: while the global `classifier` is None, both classify endpoints
return HTTP 500 with a non-empty error string and `labels: []`, regardless
of the request content. -/
theorem c2_model_not_loaded (decode : Bytes → Except String PILImage)
    (fetch : Fetch) (files : List (String × Bytes))
    (body : Except String JsonVal) (hfModelEnv : Option String) :
    (classify_image none decode files hfModelEnv).resp
        = .err 500 "Model not loaded" ∧
    (classify_image_url none decode fetch body hfModelEnv).resp
        = .err 500 "Model not loaded" ∧
    "Model not loaded" ≠ "" :=
  ⟨rfl, rfl, by decide⟩

/-- C3: with the model loaded, a /classify request lacking the `image` file
and a /classify_url request whose JSON object lacks `url` both yield HTTP
400 with the error shape, and no inference is attempted. -/
theorem c3_validation_400 (clf : Classifier)
    (decode : Bytes → Except String PILImage) (fetch : Fetch)
    (files : List (String × Bytes)) (fields : List (String × JsonVal))
    (hfModelEnv : Option String)
    (himg : files.lookup "image" = none)
    (hurl : fields.lookup "url" = none) :
    ((classify_image (some clf) decode files hfModelEnv).resp
        = .err 400 "No image file provided" ∧
     (classify_image (some clf) decode files hfModelEnv).inferInputs = []) ∧
    ((classify_image_url (some clf) decode fetch (.ok (.obj fields)) hfModelEnv).resp
        = .err 400 "No image URL provided" ∧
     (classify_image_url (some clf) decode fetch (.ok (.obj fields)) hfModelEnv).inferInputs
        = []) := by
  refine ⟨?_, ?_⟩
  · simp [classify_image, himg]
  · simp [classify_image_url, jsonContains, hurl]

/-- C3 witness: concrete invalid requests. -/
theorem c3_validation_400_witness :
    ((classify_image (some fun _ => .ok []) (fun _ => .error "bad") [] none).resp
        = .err 400 "No image file provided" ∧
     (classify_image (some fun _ => .ok []) (fun _ => .error "bad") [] none).inferInputs
        = []) ∧
    ((classify_image_url (some fun _ => .ok []) (fun _ => .error "bad")
        (fun _ _ => .error "down") (.ok (.obj [("link", .str "x")])) none).resp
        = .err 400 "No image URL provided" ∧
     (classify_image_url (some fun _ => .ok []) (fun _ => .error "bad")
        (fun _ _ => .error "down") (.ok (.obj [("link", .str "x")])) none).inferInputs
        = []) :=
  c3_validation_400 (fun _ => .ok []) (fun _ => .error "bad")
    (fun _ _ => .error "down") [] [("link", .str "x")] none rfl rfl

/-- C4: when decoding the image bytes or running inference raises, either
endpoint catches the exception and returns HTTP 500 with the raw exception
message in the `error` field. The four scenarios (decode / inference
failure on each endpoint) each carry their own oracles. -/
theorem c4_exception_message_500 (hfModelEnv : Option String)
    (clf₁ : Classifier) (decode₁ : Bytes → Except String PILImage)
    (files₁ : List (String × Bytes)) (bytes₁ : Bytes) (e₁ : String)
    (hf₁ : files₁.lookup "image" = some bytes₁)
    (hd₁ : decode₁ bytes₁ = .error e₁)
    (clf₂ : Classifier) (decode₂ : Bytes → Except String PILImage)
    (files₂ : List (String × Bytes)) (bytes₂ : Bytes) (img₂ : PILImage) (e₂ : String)
    (hf₂ : files₂.lookup "image" = some bytes₂)
    (hd₂ : decode₂ bytes₂ = .ok img₂)
    (hc₂ : clf₂ (rgbNormalize img₂) = .error e₂)
    (clf₃ : Classifier) (decode₃ : Bytes → Except String PILImage) (fetch₃ : Fetch)
    (fields₃ : List (String × JsonVal)) (url₃ : JsonVal) (resp₃ : HttpResp) (e₃ : String)
    (hu₃ : fields₃.lookup "url" = some url₃)
    (hg₃ : fetch₃ url₃ 10 = .ok resp₃)
    (hs₃ : raiseForStatus resp₃ = .ok ())
    (hd₃ : decode₃ resp₃.content = .error e₃)
    (clf₄ : Classifier) (decode₄ : Bytes → Except String PILImage) (fetch₄ : Fetch)
    (fields₄ : List (String × JsonVal)) (url₄ : JsonVal) (resp₄ : HttpResp)
    (img₄ : PILImage) (e₄ : String)
    (hu₄ : fields₄.lookup "url" = some url₄)
    (hg₄ : fetch₄ url₄ 10 = .ok resp₄)
    (hs₄ : raiseForStatus resp₄ = .ok ())
    (hd₄ : decode₄ resp₄.content = .ok img₄)
    (hc₄ : clf₄ (rgbNormalize img₄) = .error e₄) :
    (classify_image (some clf₁) decode₁ files₁ hfModelEnv).resp = .err 500 e₁ ∧
    (classify_image (some clf₂) decode₂ files₂ hfModelEnv).resp = .err 500 e₂ ∧
    (classify_image_url (some clf₃) decode₃ fetch₃ (.ok (.obj fields₃)) hfModelEnv).resp
      = .err 500 e₃ ∧
    (classify_image_url (some clf₄) decode₄ fetch₄ (.ok (.obj fields₄)) hfModelEnv).resp
      = .err 500 e₄ := by
  refine ⟨?_, ?_, ?_, ?_⟩
  · simp [classify_image, hf₁, hd₁]
  · simp [classify_image, hf₂, hd₂, hc₂]
  · simp [classify_image_url, jsonContains, jsonIndex, hu₃, hg₃, hs₃, hd₃]
  · simp [classify_image_url, jsonContains, jsonIndex, hu₄, hg₄, hs₄, hd₄, hc₄]

/-- C4 witness: concrete decode and inference failures on both endpoints. -/
theorem c4_exception_message_500_witness :
    (classify_image (some fun _ => .ok []) (fun _ => .error "cannot identify image file")
        [("image", [1])] none).resp = .err 500 "cannot identify image file" ∧
    (classify_image (some fun _ => .error "CUDA out of memory")
        (fun _ => .ok ⟨"RGB", 3⟩) [("image", [1])] none).resp
      = .err 500 "CUDA out of memory" ∧
    (classify_image_url (some fun _ => .ok []) (fun _ => .error "cannot identify image file")
        (fun _ _ => .ok ⟨200, [2]⟩) (.ok (.obj [("url", .str "http://x/a")])) none).resp
      = .err 500 "cannot identify image file" ∧
    (classify_image_url (some fun _ => .error "CUDA out of memory")
        (fun _ => .ok ⟨"RGB", 3⟩) (fun _ _ => .ok ⟨200, [2]⟩)
        (.ok (.obj [("url", .str "http://x/a")])) none).resp
      = .err 500 "CUDA out of memory" :=
  c4_exception_message_500 none
    (fun _ => .ok []) (fun _ => .error "cannot identify image file")
    [("image", [1])] [1] "cannot identify image file" rfl rfl
    (fun _ => .error "CUDA out of memory") (fun _ => .ok ⟨"RGB", 3⟩)
    [("image", [1])] [1] ⟨"RGB", 3⟩ "CUDA out of memory" rfl rfl rfl
    (fun _ => .ok []) (fun _ => .error "cannot identify image file")
    (fun _ _ => .ok ⟨200, [2]⟩) [("url", .str "http://x/a")]
    (.str "http://x/a") ⟨200, [2]⟩ "cannot identify image file" rfl rfl rfl rfl
    (fun _ => .error "CUDA out of memory") (fun _ => .ok ⟨"RGB", 3⟩)
    (fun _ _ => .ok ⟨200, [2]⟩) [("url", .str "http://x/a")]
    (.str "http://x/a") ⟨200, [2]⟩ ⟨"RGB", 3⟩ "CUDA out of memory" rfl rfl rfl rfl rfl

/-- C5: every successfully decoded image reaches the classifier in RGB mode:
`rgbNormalize` converts when the mode differs from RGB and is the identity
otherwise, and each endpoint passes exactly `rgbNormalize image` to the
classifier. -/
theorem c5_rgb_before_inference (hfModelEnv : Option String)
    (clf : Classifier) (decode : Bytes → Except String PILImage)
    (files : List (String × Bytes)) (bytes : Bytes) (img : PILImage)
    (hf : files.lookup "image" = some bytes) (hd : decode bytes = .ok img)
    (fetch : Fetch) (fields : List (String × JsonVal)) (url : JsonVal)
    (response : HttpResp) (img' : PILImage)
    (hu : fields.lookup "url" = some url) (hg : fetch url 10 = .ok response)
    (hs : raiseForStatus response = .ok ())
    (hd' : decode response.content = .ok img') :
    (∀ j : PILImage, (rgbNormalize j).mode = "RGB" ∧
      (j.mode = "RGB" → rgbNormalize j = j)) ∧
    (classify_image (some clf) decode files hfModelEnv).inferInputs
      = [rgbNormalize img] ∧
    (classify_image_url (some clf) decode fetch (.ok (.obj fields)) hfModelEnv).inferInputs
      = [rgbNormalize img'] := by
  refine ⟨?_, ?_, ?_⟩
  · intro j
    by_cases hm : j.mode = "RGB" <;> simp [rgbNormalize, PILImage.convert, hm]
  · rcases hc : clf (rgbNormalize img) with e | rs <;>
      simp [classify_image, hf, hd, hc]
  · rcases hc : clf (rgbNormalize img') with e | rs <;>
      simp [classify_image_url, jsonContains, jsonIndex, hu, hg, hs, hd', hc]

/-- C5 witness: a concrete CMYK image gets normalized before inference on
both endpoints. -/
theorem c5_rgb_before_inference_witness :
    (∀ j : PILImage, (rgbNormalize j).mode = "RGB" ∧
      (j.mode = "RGB" → rgbNormalize j = j)) ∧
    (classify_image (some fun _ => .ok []) (fun _ => .ok ⟨"CMYK", 3⟩)
        [("image", [1])] none).inferInputs = [rgbNormalize ⟨"CMYK", 3⟩] ∧
    (classify_image_url (some fun _ => .ok []) (fun _ => .ok ⟨"CMYK", 3⟩)
        (fun _ _ => .ok ⟨200, [2]⟩) (.ok (.obj [("url", .str "http://x/a")]))
        none).inferInputs = [rgbNormalize ⟨"CMYK", 3⟩] :=
  c5_rgb_before_inference none (fun _ => .ok []) (fun _ => .ok ⟨"CMYK", 3⟩)
    [("image", [1])] [1] ⟨"CMYK", 3⟩ rfl rfl
    (fun _ _ => .ok ⟨200, [2]⟩) [("url", .str "http://x/a")] (.str "http://x/a")
    ⟨200, [2]⟩ ⟨"CMYK", 3⟩ rfl rfl rfl rfl

/-- C6: both endpoints format raw results with the same pure function; it
maps the first min(10, length) entries in order to label entries; and it
preserves descending score order as non-increasing `confidence`. -/
theorem c6_formatter_pure (rs : RawResults)
    (hsorted : rs.Pairwise fun a b => b.2 ≤ a.2) :
    formatLabels_classify = formatLabels_url ∧
    formatLabels_classify rs
      = (rs.take (min 10 rs.length)).map
          (fun r => { description := r.1, confidence := r.2 }) ∧
    (formatLabels_classify rs).Pairwise
      (fun a b => b.confidence ≤ a.confidence) := by
  refine ⟨rfl, ?_, ?_⟩
  · rw [show rs.take (min 10 rs.length) = rs.take 10 from
      List.take_eq_take.mpr (by omega)]
    rfl
  · have h10 : (rs.take 10).Pairwise fun a b => b.2 ≤ a.2 :=
      hsorted.sublist (List.take_sublist 10 rs)
    unfold formatLabels_classify
    rw [List.pairwise_map]
    exact h10

/-- C6 witness: a concrete descending-score raw result list. -/
theorem c6_formatter_pure_witness :
    formatLabels_classify = formatLabels_url ∧
    formatLabels_classify [("cat", 1), ("dog", 0)]
      = (([("cat", 1), ("dog", 0)] : RawResults).take
            (min 10 ([("cat", 1), ("dog", 0)] : RawResults).length)).map
          (fun r => { description := r.1, confidence := r.2 }) ∧
    (formatLabels_classify [("cat", 1), ("dog", 0)]).Pairwise
      (fun a b => b.confidence ≤ a.confidence) :=
  c6_formatter_pure [("cat", 1), ("dog", 0)] (by decide)

/-- Whatever the request, /classify_url records no fetch or exactly one
fetch, and any fetch it makes uses timeout 10. -/
theorem classify_image_url_fetchCalls (classifier : Option Classifier)
    (decode : Bytes → Except String PILImage) (fetch : Fetch)
    (body : Except String JsonVal) (hfModelEnv : Option String) :
    (classify_image_url classifier decode fetch body hfModelEnv).fetchCalls = [] ∨
      ∃ v, (classify_image_url classifier decode fetch body hfModelEnv).fetchCalls
        = [(v, 10)] := by
  rcases classifier with _ | clf
  · left; rfl
  rcases body with e | data
  · left; rfl
  rcases hj : jsonContains data "url" with e | b
  · left; simp [classify_image_url, hj]
  rcases b
  · left; simp [classify_image_url, hj]
  rcases hi : jsonIndex data "url" with e | url
  · left; simp [classify_image_url, hj, hi]
  rcases hg : fetch url 10 with e | response
  · right; exact ⟨url, by simp [classify_image_url, hj, hi, hg]⟩
  rcases hs : raiseForStatus response with e | u
  · right; exact ⟨url, by simp [classify_image_url, hj, hi, hg, hs]⟩
  rcases hd : decode response.content with e | img
  · right; exact ⟨url, by simp [classify_image_url, hj, hi, hg, hs, hd]⟩
  rcases hc : clf (rgbNormalize img) with e | rs
  · right; exact ⟨url, by simp [classify_image_url, hj, hi, hg, hs, hd, hc]⟩
  · right; exact ⟨url, by simp [classify_image_url, hj, hi, hg, hs, hd, hc]⟩

/-- C7: /classify_url performs at most one URL fetch per request, always
with timeout 10; when the validated request reaches the fetch, exactly one
call is made; a fetch exception or a non-success status is surfaced as
HTTP 500 with the error shape. -/
theorem c7_single_fetch_timeout10 (classifier : Option Classifier)
    (decode : Bytes → Except String PILImage) (fetch : Fetch)
    (body : Except String JsonVal) (hfModelEnv : Option String)
    (clf : Classifier) (decodeA decodeB : Bytes → Except String PILImage)
    (fetchA fetchB : Fetch) (fields : List (String × JsonVal)) (url : JsonVal)
    (e : String) (r : HttpResp)
    (hu : fields.lookup "url" = some url)
    (hgA : fetchA url 10 = .error e)
    (hgB : fetchB url 10 = .ok r)
    (hr : 400 ≤ r.statusCode) (hr' : r.statusCode < 600) :
    ((classify_image_url classifier decode fetch body hfModelEnv).fetchCalls = [] ∨
      ∃ v, (classify_image_url classifier decode fetch body hfModelEnv).fetchCalls
        = [(v, 10)]) ∧
    ((classify_image_url (some clf) decodeA fetchA (.ok (.obj fields)) hfModelEnv).resp
        = .err 500 e ∧
     (classify_image_url (some clf) decodeA fetchA (.ok (.obj fields)) hfModelEnv).fetchCalls
        = [(url, 10)]) ∧
    ((classify_image_url (some clf) decodeB fetchB (.ok (.obj fields)) hfModelEnv).resp
        = .err 500 (toString r.statusCode ++
            (if r.statusCode < 500 then " Client Error" else " Server Error")) ∧
     (classify_image_url (some clf) decodeB fetchB (.ok (.obj fields)) hfModelEnv).fetchCalls
        = [(url, 10)]) := by
  refine ⟨?_, ?_, ?_⟩
  · exact classify_image_url_fetchCalls classifier decode fetch body hfModelEnv
  · constructor <;> simp [classify_image_url, jsonContains, jsonIndex, hu, hgA]
  · have hrs : raiseForStatus r =
        .error (toString r.statusCode ++
          (if r.statusCode < 500 then " Client Error" else " Server Error")) := by
      unfold raiseForStatus
      rw [if_pos ⟨hr, hr'⟩]
    constructor <;> simp [classify_image_url, jsonContains, jsonIndex, hu, hgB, hrs]

/-- C7 witness: a timed-out fetch and a 404 fetch on concrete requests. -/
theorem c7_single_fetch_timeout10_witness :
    ((classify_image_url none (fun _ => .error "bad") (fun _ _ => .error "down")
        (.error "no body") none).fetchCalls = [] ∨
      ∃ v, (classify_image_url none (fun _ => .error "bad") (fun _ _ => .error "down")
        (.error "no body") none).fetchCalls = [(v, 10)]) ∧
    ((classify_image_url (some fun _ => .ok []) (fun _ => .error "bad")
        (fun _ _ => .error "Read timed out") (.ok (.obj [("url", .str "http://x/a")]))
        none).resp = .err 500 "Read timed out" ∧
     (classify_image_url (some fun _ => .ok []) (fun _ => .error "bad")
        (fun _ _ => .error "Read timed out") (.ok (.obj [("url", .str "http://x/a")]))
        none).fetchCalls = [(.str "http://x/a", 10)]) ∧
    ((classify_image_url (some fun _ => .ok []) (fun _ => .error "bad")
        (fun _ _ => .ok ⟨404, []⟩) (.ok (.obj [("url", .str "http://x/a")]))
        none).resp = .err 500 (toString (404 : Nat) ++
          (if (404 : Nat) < 500 then " Client Error" else " Server Error")) ∧
     (classify_image_url (some fun _ => .ok []) (fun _ => .error "bad")
        (fun _ _ => .ok ⟨404, []⟩) (.ok (.obj [("url", .str "http://x/a")]))
        none).fetchCalls = [(.str "http://x/a", 10)]) :=
  c7_single_fetch_timeout10 none (fun _ => .error "bad") (fun _ _ => .error "down")
    (.error "no body") none (fun _ => .ok []) (fun _ => .error "bad")
    (fun _ => .error "bad") (fun _ _ => .error "Read timed out")
    (fun _ _ => .ok ⟨404, []⟩) [("url", .str "http://x/a")] (.str "http://x/a")
    "Read timed out" ⟨404, []⟩ rfl rfl rfl (by decide) (by decide)

/-- C8: a startup model-load failure terminates the process with exit code
1 (non-zero) without serving; the load is attempted exactly once (no retry,
no fallback); and `load_model` returns True exactly when the global
classifier ends up set. -/
theorem c8_startup_failure_exits (p : String → Except String Classifier)
    (hfModelEnv : Option String) (portEnv : Option Nat) (e : String)
    (hfail : p (hfModelName hfModelEnv) = .error e) :
    serviceMain p hfModelEnv portEnv = (.exited 1, 1) ∧
    (1 : Nat) ≠ 0 ∧
    (∀ (q : String → Except String Classifier) (n : String),
      (load_model q none n).2 = true ↔ (load_model q none n).1.isSome) ∧
    (∀ (q : String → Except String Classifier) (m : Option String)
        (pe : Option Nat), (serviceMain q m pe).2 = 1) := by
  refine ⟨?_, by decide, ?_, ?_⟩
  · simp [serviceMain, load_model, hfail]
  · intro q n
    rcases hq : q n with e | c <;> simp [load_model, hq]
  · intro q m pe
    rcases hq : q (hfModelName m) with e | c <;> simp [serviceMain, load_model, hq]

/-- C8 witness: a concrete failing loader. -/
theorem c8_startup_failure_exits_witness :
    serviceMain (fun _ => .error "no module named torch") none none = (.exited 1, 1) ∧
    (1 : Nat) ≠ 0 ∧
    (∀ (q : String → Except String Classifier) (n : String),
      (load_model q none n).2 = true ↔ (load_model q none n).1.isSome) ∧
    (∀ (q : String → Except String Classifier) (m : Option String)
        (pe : Option Nat), (serviceMain q m pe).2 = 1) :=
  c8_startup_failure_exits (fun _ => .error "no module named torch") none none
    "no module named torch" rfl

/-- The dispatcher never changes the classifier state, whatever the route. -/
theorem handle_fst_eq (decode : Bytes → Except String PILImage) (fetch : Fetch)
    (hfModelEnv : Option String) (st : Option Classifier) (req : Request) :
    (handle decode fetch hfModelEnv st req).1 = st := by
  cases req <;> rfl

/-- Running any request sequence leaves the classifier state unchanged. -/
theorem runServer_eq (decode : Bytes → Except String PILImage) (fetch : Fetch)
    (hfModelEnv : Option String) (reqs : List Request) (st : Option Classifier) :
    runServer decode fetch hfModelEnv st reqs = st := by
  induction reqs generalizing st with
  | nil => rfl
  | cons r rs ih =>
    rw [runServer, handle_fst_eq]
    exact ih st

/-- C9: the service never leaves the Ready state: no request handler
modifies the global `classifier`, any request sequence preserves it, and
once it is set the health endpoint reports `model_loaded: true` at every
later point. -/
theorem c9_ready_is_stable (decode : Bytes → Except String PILImage)
    (fetch : Fetch) (hfModelEnv : Option String) (st : Option Classifier)
    (c : Classifier) (reqs : List Request)
    (hready : st = some c) :
    (∀ (st' : Option Classifier) (req' : Request),
        (handle decode fetch hfModelEnv st' req').1 = st') ∧
    runServer decode fetch hfModelEnv st reqs = st ∧
    (handle decode fetch hfModelEnv (runServer decode fetch hfModelEnv st reqs)
        Request.health).2 = .health "ok" true := by
  subst hready
  refine ⟨fun st' req' => handle_fst_eq decode fetch hfModelEnv st' req', ?_, ?_⟩
  · exact runServer_eq decode fetch hfModelEnv reqs (some c)
  · rw [runServer_eq]
    rfl

/-- C9 witness: a loaded classifier survives a concrete request sequence. -/
theorem c9_ready_is_stable_witness :
    (∀ (st' : Option Classifier) (req' : Request),
        (handle (fun _ => .error "bad") (fun _ _ => .error "down") none st' req').1
          = st') ∧
    runServer (fun _ => .error "bad") (fun _ _ => .error "down") none
        (some fun _ => .ok []) [Request.health, Request.classify [], Request.health]
      = (some fun _ => .ok []) ∧
    (handle (fun _ => .error "bad") (fun _ _ => .error "down") none
        (runServer (fun _ => .error "bad") (fun _ _ => .error "down") none
          (some fun _ => .ok [])
          [Request.health, Request.classify [], Request.health])
        Request.health).2 = .health "ok" true :=
  c9_ready_is_stable (fun _ => .error "bad") (fun _ _ => .error "down") none
    (some fun _ => .ok []) (fun _ => .ok [])
    [Request.health, Request.classify [], Request.health] rfl

/-- C10: with the model loaded, a /classify_url request whose body fails to
parse as JSON, or parses to JSON null, yields HTTP 500 (not 400): the
raised exception is caught by the generic handler. -/
theorem c10_non_object_body_500 (clf : Classifier)
    (decode : Bytes → Except String PILImage) (fetch : Fetch)
    (hfModelEnv : Option String) (e : String) :
    ((classify_image_url (some clf) decode fetch (.error e) hfModelEnv).resp
        = .err 500 e ∧
     (classify_image_url (some clf) decode fetch (.error e) hfModelEnv).resp.statusCode
        = 500 ∧
     (classify_image_url (some clf) decode fetch (.error e) hfModelEnv).resp.statusCode
        ≠ 400) ∧
    ((classify_image_url (some clf) decode fetch (.ok .null) hfModelEnv).resp
        = .err 500 "argument of type NoneType is not iterable" ∧
     (classify_image_url (some clf) decode fetch (.ok .null) hfModelEnv).resp.statusCode
        = 500) := by
  refine ⟨⟨rfl, rfl, ?_⟩, rfl, rfl⟩
  exact (by decide : (500 : Nat) ≠ 400)

end ImageClassifier

